import Mathlib

/-!
# POD Design Studio — design-asset lifecycle, formalized

A shallow embedding of the design-generation and asset-lifecycle pipeline of
the POD Design Studio web application (`src/App.tsx`, `src/types.ts`,
`services/apiService.ts`).  The Asset Store is the ordered list of
`DesignData` records held in the `generatedDesigns` React state; the lifecycle
handlers of `App.tsx` become pure functions from a store (plus the responses
of the external AI / background-removal gateways, modeled as an oracle
`Gateway`) to a new store.  Fallible gateway calls return `Option`: `none` is
a thrown error caught by the handler's `try/catch`.
-/

/-- `Metadata` from `src/types.ts`: the AI-produced listing metadata of one
design.  All fields are free-form text. -/
structure Metadata where
  Title : String
  Description : String
  Tags : String
  «Type» : String
  Color : String
deriving DecidableEq

/-- `DesignData` from `src/types.ts`: one generated design record of the
Asset Store. -/
structure DesignData where
  id : String
  metadata : Metadata
  imageUrl : String
  originalImageUrl : String
  originalIdea : String
  bgRemoved : Bool
  upscaled : Bool
deriving DecidableEq

/-- The external gateways (`services/apiService.ts`) as a response oracle.
Each operation either returns a value or fails (`none`, i.e. a rejected
promise caught by the calling handler).  `removeBackground` and
`upscaleImage` also absorb the subsequent `blobToDataUrl` conversion: they
map the current image URL directly to the new data URL. -/
structure Gateway where
  generateMetadataAndPrompt : String → Option (String × Metadata)
  generateImageFromPrompt : String → Option String
  removeBackground : String → Option String
  upscaleImage : String → Option String

/-- `generateSingleDesign` (`src/App.tsx` lines 59–77): asks the gateway for
`{image_prompt, metadata}` from the idea, then for an image from the prompt;
on success builds a fresh record with `originalImageUrl := imageUrl`,
`originalIdea := idea` and both transform flags false; on any failure returns
`none` (the JS code catches the error and returns `null`).  The fresh
`crypto.randomUUID()` is modeled by the explicit argument `newId`. -/
def generateSingleDesign (gw : Gateway) (newId : String) (idea : String) :
    Option DesignData :=
  match gw.generateMetadataAndPrompt idea with
  | none => none
  | some (image_prompt, metadata) =>
    match gw.generateImageFromPrompt image_prompt with
    | none => none
    | some imageUrl =>
      some { id := newId, metadata := metadata, imageUrl := imageUrl,
             originalImageUrl := imageUrl, originalIdea := idea,
             bgRemoved := false, upscaled := false }

/-- `updateDesign` (`src/App.tsx` lines 102–104): single-record
replace-by-id, `designs.map(d => d.id === id ? { ...d, ...updates } : d)`.
The spread `updates` at each call site is the function `f`. -/
def updateDesign (store : List DesignData) (id : String)
    (f : DesignData → DesignData) : List DesignData :=
  store.map fun d => if d.id == id then f d else d

/-- `generatedDesigns.find(d => d.id === id)`, the lookup every transform
handler starts with. -/
def findDesign (store : List DesignData) (id : String) : Option DesignData :=
  store.find? fun d => d.id == id

/-- `handleRemoveBackground` (`src/App.tsx` lines 115–127): no-op when the
id is absent or the design already has `bgRemoved`; otherwise sends the
current `imageUrl` to the background-removal gateway and, on success,
replaces `imageUrl` and sets `bgRemoved := true`; on failure only a message
is shown and the store is unchanged. -/
def handleRemoveBackground (gw : Gateway) (store : List DesignData)
    (id : String) : List DesignData :=
  match findDesign store id with
  | none => store
  | some design =>
    if design.bgRemoved then store
    else
      match gw.removeBackground design.imageUrl with
      | none => store
      | some newImageUrl =>
        updateDesign store id
          fun d => { d with imageUrl := newImageUrl, bgRemoved := true }

/-- `handleUpscale` (`src/App.tsx` lines 129–141): same shape as
`handleRemoveBackground` with the `upscaled` flag and the upscaling
gateway. -/
def handleUpscale (gw : Gateway) (store : List DesignData) (id : String) :
    List DesignData :=
  match findDesign store id with
  | none => store
  | some design =>
    if design.upscaled then store
    else
      match gw.upscaleImage design.imageUrl with
      | none => store
      | some newImageUrl =>
        updateDesign store id
          fun d => { d with imageUrl := newImageUrl, upscaled := true }

/-- `handleRemix` (`src/App.tsx` lines 143–152): re-runs
`generateSingleDesign` on the found design's stored `originalIdea` and, on
success, appends the new record; on failure (or unknown id) the store is
unchanged. -/
def handleRemix (gw : Gateway) (newId : String) (store : List DesignData)
    (id : String) : List DesignData :=
  match findDesign store id with
  | none => store
  | some design =>
    match generateSingleDesign gw newId design.originalIdea with
    | none => store
    | some newDesign => store ++ [newDesign]

/-- `handleRevert` (`src/App.tsx` lines 154–163): no-op when the id is
absent or `imageUrl === originalImageUrl`; otherwise restores the found
design's `originalImageUrl` and clears both flags. -/
def handleRevert (store : List DesignData) (id : String) : List DesignData :=
  match findDesign store id with
  | none => store
  | some design =>
    if design.imageUrl == design.originalImageUrl then store
    else
      updateDesign store id
        fun d => { d with imageUrl := design.originalImageUrl,
                          bgRemoved := false, upscaled := false }

/-- `handleGenerateFromIdea` (`src/App.tsx` lines 213–223): one single
generation appended to the store on success, store unchanged on failure. -/
def handleGenerateFromIdea (gw : Gateway) (newId : String)
    (store : List DesignData) (idea : String) : List DesignData :=
  match generateSingleDesign gw newId idea with
  | none => store
  | some newDesign => store ++ [newDesign]

/-- `handleClearSession` (`src/App.tsx` lines 239–244): replaces the store
with the empty list, but only after explicit user confirmation. -/
def handleClearSession (confirmed : Bool) (store : List DesignData) :
    List DesignData :=
  if confirmed then [] else store

/-- The sequential generation loop of `handleBulkGeneration`
(`src/App.tsx` lines 90–98): ideas are processed strictly one at a time in
order; each successful design is pushed onto `newDesigns` (which the loop
also publishes as the store after every success); failures are skipped.  The
result is the final `newDesigns` list, which is the store when the loop
ends.  The UUID supply is indexed by the position of the idea. -/
def bulkLoop (gw : Gateway) (ids : Nat → String) :
    Nat → List String → List DesignData
  | _, [] => []
  | n, idea :: rest =>
    match generateSingleDesign gw (ids n) idea with
    | none => bulkLoop gw ids (n + 1) rest
    | some design => design :: bulkLoop gw ids (n + 1) rest

/-- The full bulk run over an already-parsed idea list: the final store
content produced by the loop, starting from the empty `newDesigns`. -/
def bulkGenerate (gw : Gateway) (ids : Nat → String)
    (ideas : List String) : List DesignData :=
  bulkLoop gw ids 0 ideas

/-- The idea parse of `handleBulkGeneration` (`src/App.tsx` line 80):
`ideaPrompt.split('\n').map(idea => idea.trim()).filter(Boolean)`. -/
def splitIdeas (ideaPrompt : String) : List String :=
  ((ideaPrompt.splitOn "\n").map String.trim).filter fun s => s ≠ ""

/-- `handleBulkGeneration` (`src/App.tsx` lines 79–100) over the parsed
idea list: when the list is empty, only an error message is shown and the
store is untouched; otherwise the store is first reset to `[]`
(`setGeneratedDesigns([])`, line 88) and then rebuilt by the loop, so the
result is exactly `bulkGenerate` and is independent of the previous store. -/
def handleBulkGeneration (gw : Gateway) (ids : Nat → String)
    (store : List DesignData) (ideas : List String) : List DesignData :=
  if ideas.isEmpty then store else bulkGenerate gw ids ideas

/-- `handleBulkGeneration` from the raw textarea contents. -/
def handleBulkGenerationFromPrompt (gw : Gateway) (ids : Nat → String)
    (store : List DesignData) (ideaPrompt : String) : List DesignData :=
  handleBulkGeneration gw ids store (splitIdeas ideaPrompt)

/-- The `resolution` entry of the print report built client-side by
`handleImageUpload` (`src/App.tsx` lines 194–202). -/
structure ResolutionReport where
  status : String
  details : String
  suggestion : Option String
deriving DecidableEq

/-- `Math.round(x)` for a nonnegative rational `m / 15`, as used for the
DPI estimate (`src/App.tsx` line 194). -/
def jsRoundDiv15 (m : Nat) : Nat :=
  (2 * m + 15) / 30

/-- The locally computed resolution verdict (`src/App.tsx` lines 194–199):
status `✅` iff `naturalWidth ≥ 4500 ∧ naturalHeight ≥ 5400`, else `⚠️`;
an upscaling suggestion exactly when `naturalWidth < 4500 ∨
naturalHeight < 5400`. -/
def resolutionCheck (naturalWidth naturalHeight : Nat) : ResolutionReport :=
  { status := if naturalWidth ≥ 4500 ∧ naturalHeight ≥ 5400 then "✅" else "⚠️"
    details := "Your image is " ++ toString naturalWidth ++ "x" ++
      toString naturalHeight ++ "px (~" ++
      toString (jsRoundDiv15 (max naturalWidth naturalHeight)) ++
      " DPI). Recommended: 4500x5400px (300 DPI)."
    suggestion :=
      if naturalWidth < 4500 ∨ naturalHeight < 5400 then
        some "Use an upscaler for a high-quality print."
      else none }

/-- One row of the metadata spreadsheet. -/
structure MetadataRow where
  Title : String
  Description : String
  Tags : String
  «Type» : String
  Color : String
  OriginalIdea : String
deriving DecidableEq

/-- `downloadMetadataAsXLSX` (`services/apiService.ts`): the `worksheetData`
array handed to the spreadsheet library — one row per design, in store
order, with the five metadata columns plus `OriginalIdea`. -/
def downloadMetadataAsXLSX (designs : List DesignData) : List MetadataRow :=
  designs.map fun d =>
    { Title := d.metadata.Title, Description := d.metadata.Description,
      Tags := d.metadata.Tags, «Type» := d.metadata.«Type»,
      Color := d.metadata.Color, OriginalIdea := d.originalIdea }

/-- The single transform operations a design can undergo between creation
and revert. -/
inductive TransformOp where
  | removeBg : TransformOp
  | upscale : TransformOp
deriving DecidableEq

/-- Apply one transform handler to the store. -/
def applyTransform (gw : Gateway) (store : List DesignData) (id : String) :
    TransformOp → List DesignData
  | TransformOp.removeBg => handleRemoveBackground gw store id
  | TransformOp.upscale => handleUpscale gw store id

/-- Apply a sequence of transform handlers, left to right. -/
def applyTransforms (gw : Gateway) (store : List DesignData) (id : String) :
    List TransformOp → List DesignData
  | [] => store
  | op :: ops => applyTransforms gw (applyTransform gw store id op) id ops

/-- The per-design data the spec declares immutable: the id together with
the creation-time image. -/
def originalPairs (store : List DesignData) : List (String × String) :=
  store.map fun d => (d.id, d.originalImageUrl)

/-- Sample metadata for concrete evaluations. -/
def mdSample : Metadata :=
  { Title := "Synthwave Cat", Description := "retro cat",
    Tags := "cat,retro", «Type» := "tee", Color := "black" }

/-- A sample freshly generated design sitting in the store. -/
def dSample : DesignData :=
  { id := "a", metadata := mdSample, imageUrl := "img0",
    originalImageUrl := "img0", originalIdea := "a synthwave cat",
    bgRemoved := false, upscaled := false }

/-- A gateway on which every call fails. -/
def gwFail : Gateway :=
  { generateMetadataAndPrompt := fun _ => none
    generateImageFromPrompt := fun _ => none
    removeBackground := fun _ => none
    upscaleImage := fun _ => none }

/-- A gateway on which every call succeeds: metadata generation fails only
on the idea `"b"`, image generation prefixes `"img:"`, and both image
transforms prefix a tag onto the current URL. -/
def gwDemo : Gateway :=
  { generateMetadataAndPrompt :=
      fun idea => if idea = "b" then none else some ("prompt:" ++ idea, mdSample)
    generateImageFromPrompt := fun p => some ("img:" ++ p)
    removeBackground := fun url => some ("nobg:" ++ url)
    upscaleImage := fun url => some ("up:" ++ url) }

/-- A gateway whose background removal returns the input image unchanged
(a successful call whose output happens to equal its input). -/
def gwIdentityBg : Gateway :=
  { generateMetadataAndPrompt := fun _ => none
    generateImageFromPrompt := fun _ => none
    removeBackground := fun url => some url
    upscaleImage := fun _ => none }

/-- The design `gwDemo` produces for a given fresh id and idea. -/
def dIdea (newId idea : String) : DesignData :=
  { id := newId, metadata := mdSample, imageUrl := "img:prompt:" ++ idea,
    originalImageUrl := "img:prompt:" ++ idea, originalIdea := idea,
    bgRemoved := false, upscaled := false }

/-- The success witnesses of the bulk run over `["a", "b", "c"]` under
`gwDemo` with the constant id supply `"u"`: position `2` yields the design
for idea `"c"`, every other successful position the design for `"a"`. -/
def dBulkWitness (j : Nat) : DesignData :=
  if j = 2 then dIdea "u" "c" else dIdea "u" "a"

/-! ## Helper lemmas about the store primitives -/

theorem findDesign_updateDesign (store : List DesignData) (i : String)
    (f : DesignData → DesignData) (hf : ∀ d, (f d).id = d.id) :
    ∀ d, findDesign store i = some d →
      findDesign (updateDesign store i f) i = some (f d) := by
  induction store with
  | nil => intro d h; simp [findDesign] at h
  | cons a l ih =>
    intro d h
    have ih' := ih
    simp only [findDesign, updateDesign] at ih' ⊢
    simp only [findDesign] at h
    rw [List.find?_cons] at h
    simp only [List.map_cons, List.find?_cons]
    by_cases ha : (a.id == i) = true
    · rw [ha] at h
      have h2 : some a = some d := h
      injection h2 with h2; subst h2
      rw [if_pos ha]
      have hfa : ((f a).id == i) = true := by rw [hf a]; exact ha
      rw [hfa]
    · have ha' : (a.id == i) = false := Bool.not_eq_true _ ▸ ha
      rw [ha'] at h
      have h2 : List.find? (fun d => d.id == i) l = some d := h
      rw [if_neg ha]
      rw [ha']
      exact ih' d h2

theorem map_id_updateDesign (store : List DesignData) (i : String)
    (f : DesignData → DesignData) (hf : ∀ d, (f d).id = d.id) :
    (updateDesign store i f).map DesignData.id = store.map DesignData.id := by
  induction store with
  | nil => rfl
  | cons a l ih =>
    have ih' := ih
    simp only [updateDesign] at ih' ⊢
    have hga : (if a.id == i then f a else a).id = a.id := by
      by_cases ha : (a.id == i) = true
      · rw [if_pos ha, hf a]
      · rw [if_neg ha]
    simp only [List.map_cons]
    rw [ih', hga]

theorem originalPairs_updateDesign (store : List DesignData) (i : String)
    (f : DesignData → DesignData)
    (hf : ∀ d, (f d).id = d.id ∧ (f d).originalImageUrl = d.originalImageUrl) :
    originalPairs (updateDesign store i f) = originalPairs store := by
  induction store with
  | nil => rfl
  | cons a l ih =>
    have ih' := ih
    simp only [originalPairs, updateDesign] at ih' ⊢
    have hga : (if a.id == i then f a else a).id = a.id := by
      by_cases ha : (a.id == i) = true
      · rw [if_pos ha, (hf a).1]
      · rw [if_neg ha]
    have hgo : (if a.id == i then f a else a).originalImageUrl =
        a.originalImageUrl := by
      by_cases ha : (a.id == i) = true
      · rw [if_pos ha, (hf a).2]
      · rw [if_neg ha]
    simp only [List.map_cons]
    rw [ih', hga, hgo]

/-! ## Case lemmas for the lifecycle handlers -/

theorem handleRemoveBackground_not_found (gw : Gateway)
    (store : List DesignData) (i : String) (h : findDesign store i = none) :
    handleRemoveBackground gw store i = store := by
  simp [handleRemoveBackground, h]

theorem handleRemoveBackground_flagged (gw : Gateway)
    (store : List DesignData) (i : String) (d : DesignData)
    (h : findDesign store i = some d) (hd : d.bgRemoved = true) :
    handleRemoveBackground gw store i = store := by
  simp [handleRemoveBackground, h, hd]

theorem handleRemoveBackground_fail (gw : Gateway) (store : List DesignData)
    (i : String) (d : DesignData) (h : findDesign store i = some d)
    (hd : d.bgRemoved = false) (hg : gw.removeBackground d.imageUrl = none) :
    handleRemoveBackground gw store i = store := by
  simp [handleRemoveBackground, h, hd, hg]

theorem handleRemoveBackground_success (gw : Gateway)
    (store : List DesignData) (i : String) (d : DesignData) (u : String)
    (h : findDesign store i = some d) (hd : d.bgRemoved = false)
    (hg : gw.removeBackground d.imageUrl = some u) :
    handleRemoveBackground gw store i =
      updateDesign store i fun x =>
        { x with imageUrl := u, bgRemoved := true } := by
  simp [handleRemoveBackground, h, hd, hg]

theorem handleUpscale_not_found (gw : Gateway) (store : List DesignData)
    (i : String) (h : findDesign store i = none) :
    handleUpscale gw store i = store := by
  simp [handleUpscale, h]

theorem handleUpscale_flagged (gw : Gateway) (store : List DesignData)
    (i : String) (d : DesignData) (h : findDesign store i = some d)
    (hd : d.upscaled = true) : handleUpscale gw store i = store := by
  simp [handleUpscale, h, hd]

theorem handleUpscale_fail (gw : Gateway) (store : List DesignData)
    (i : String) (d : DesignData) (h : findDesign store i = some d)
    (hd : d.upscaled = false) (hg : gw.upscaleImage d.imageUrl = none) :
    handleUpscale gw store i = store := by
  simp [handleUpscale, h, hd, hg]

theorem handleUpscale_success (gw : Gateway) (store : List DesignData)
    (i : String) (d : DesignData) (u : String)
    (h : findDesign store i = some d) (hd : d.upscaled = false)
    (hg : gw.upscaleImage d.imageUrl = some u) :
    handleUpscale gw store i =
      updateDesign store i fun x =>
        { x with imageUrl := u, upscaled := true } := by
  simp [handleUpscale, h, hd, hg]

theorem handleRemix_not_found (gw : Gateway) (newId : String)
    (store : List DesignData) (i : String) (h : findDesign store i = none) :
    handleRemix gw newId store i = store := by
  simp [handleRemix, h]

theorem handleRemix_fail (gw : Gateway) (newId : String)
    (store : List DesignData) (i : String) (d : DesignData)
    (h : findDesign store i = some d)
    (hg : generateSingleDesign gw newId d.originalIdea = none) :
    handleRemix gw newId store i = store := by
  simp [handleRemix, h, hg]

theorem handleRemix_success (gw : Gateway) (newId : String)
    (store : List DesignData) (i : String) (d nd : DesignData)
    (h : findDesign store i = some d)
    (hg : generateSingleDesign gw newId d.originalIdea = some nd) :
    handleRemix gw newId store i = store ++ [nd] := by
  simp [handleRemix, h, hg]

theorem handleRevert_not_found (store : List DesignData) (i : String)
    (h : findDesign store i = none) : handleRevert store i = store := by
  simp [handleRevert, h]

theorem handleRevert_noop (store : List DesignData) (i : String)
    (d : DesignData) (h : findDesign store i = some d)
    (he : d.imageUrl = d.originalImageUrl) : handleRevert store i = store := by
  simp [handleRevert, h, he]

theorem handleRevert_restores (store : List DesignData) (i : String)
    (d : DesignData) (h : findDesign store i = some d)
    (he : ¬d.imageUrl = d.originalImageUrl) :
    handleRevert store i =
      updateDesign store i fun x =>
        { x with imageUrl := d.originalImageUrl,
                 bgRemoved := false, upscaled := false } := by
  simp [handleRevert, h, he]

theorem handleGenerateFromIdea_fail (gw : Gateway) (newId : String)
    (store : List DesignData) (idea : String)
    (h : generateSingleDesign gw newId idea = none) :
    handleGenerateFromIdea gw newId store idea = store := by
  simp [handleGenerateFromIdea, h]

theorem handleGenerateFromIdea_success (gw : Gateway) (newId : String)
    (store : List DesignData) (idea : String) (nd : DesignData)
    (h : generateSingleDesign gw newId idea = some nd) :
    handleGenerateFromIdea gw newId store idea = store ++ [nd] := by
  simp [handleGenerateFromIdea, h]

theorem findDesign_handleRemoveBackground (gw : Gateway)
    (store : List DesignData) (i : String) (d : DesignData)
    (h : findDesign store i = some d) :
    ∃ d', findDesign (handleRemoveBackground gw store i) i = some d' ∧
      d'.id = d.id ∧ d'.originalImageUrl = d.originalImageUrl := by
  by_cases hd : d.bgRemoved = true
  · rw [handleRemoveBackground_flagged gw store i d h hd]
    exact ⟨d, h, rfl, rfl⟩
  · have hd' : d.bgRemoved = false := by simpa using hd
    cases hg : gw.removeBackground d.imageUrl with
    | none =>
      rw [handleRemoveBackground_fail gw store i d h hd' hg]
      exact ⟨d, h, rfl, rfl⟩
    | some u =>
      rw [handleRemoveBackground_success gw store i d u h hd' hg]
      exact ⟨_, findDesign_updateDesign store i
        (fun x => { x with imageUrl := u, bgRemoved := true })
        (fun _ => rfl) d h, rfl, rfl⟩

theorem findDesign_handleUpscale (gw : Gateway) (store : List DesignData)
    (i : String) (d : DesignData) (h : findDesign store i = some d) :
    ∃ d', findDesign (handleUpscale gw store i) i = some d' ∧
      d'.id = d.id ∧ d'.originalImageUrl = d.originalImageUrl := by
  by_cases hd : d.upscaled = true
  · rw [handleUpscale_flagged gw store i d h hd]
    exact ⟨d, h, rfl, rfl⟩
  · have hd' : d.upscaled = false := by simpa using hd
    cases hg : gw.upscaleImage d.imageUrl with
    | none =>
      rw [handleUpscale_fail gw store i d h hd' hg]
      exact ⟨d, h, rfl, rfl⟩
    | some u =>
      rw [handleUpscale_success gw store i d u h hd' hg]
      exact ⟨_, findDesign_updateDesign store i
        (fun x => { x with imageUrl := u, upscaled := true })
        (fun _ => rfl) d h, rfl, rfl⟩

theorem findDesign_applyTransform (gw : Gateway) (store : List DesignData)
    (i : String) (op : TransformOp) (d : DesignData)
    (h : findDesign store i = some d) :
    ∃ d', findDesign (applyTransform gw store i op) i = some d' ∧
      d'.id = d.id ∧ d'.originalImageUrl = d.originalImageUrl := by
  cases op
  · exact findDesign_handleRemoveBackground gw store i d h
  · exact findDesign_handleUpscale gw store i d h

theorem findDesign_applyTransforms (gw : Gateway) (i : String)
    (ops : List TransformOp) :
    ∀ store d, findDesign store i = some d →
      ∃ d', findDesign (applyTransforms gw store i ops) i = some d' ∧
        d'.id = d.id ∧ d'.originalImageUrl = d.originalImageUrl := by
  induction ops with
  | nil => exact fun store d h => ⟨d, h, rfl, rfl⟩
  | cons op ops ih =>
    intro store d h
    obtain ⟨d1, h1, hid1, ho1⟩ := findDesign_applyTransform gw store i op d h
    obtain ⟨d2, h2, hid2, ho2⟩ := ih _ d1 h1
    exact ⟨d2, h2, hid2.trans hid1, ho2.trans ho1⟩

theorem findDesign_handleRevert (store : List DesignData) (i : String)
    (d : DesignData) (h : findDesign store i = some d) :
    ∃ e, findDesign (handleRevert store i) i = some e ∧
      e.imageUrl = e.originalImageUrl ∧
      e.originalImageUrl = d.originalImageUrl ∧
      (¬d.imageUrl = d.originalImageUrl →
        e.bgRemoved = false ∧ e.upscaled = false) := by
  by_cases he : d.imageUrl = d.originalImageUrl
  · rw [handleRevert_noop store i d h he]
    exact ⟨d, h, he, rfl, fun hc => absurd he hc⟩
  · rw [handleRevert_restores store i d h he]
    exact ⟨_, findDesign_updateDesign store i
      (fun x => { x with imageUrl := d.originalImageUrl,
                         bgRemoved := false, upscaled := false })
      (fun _ => rfl) d h, rfl, rfl, fun _ => ⟨rfl, rfl⟩⟩

theorem bulkLoop_eq_filterMap (gw : Gateway) (ids : Nat → String) :
    ∀ (ideas : List String) (n : Nat),
      bulkLoop gw ids n ideas = (List.enumFrom n ideas).filterMap
        fun p => generateSingleDesign gw (ids p.1) p.2 := by
  intro ideas
  induction ideas with
  | nil => intro n; rfl
  | cons a t ih =>
    intro n
    cases hg : generateSingleDesign gw (ids n) a with
    | none =>
      simp [bulkLoop, List.enumFrom, List.filterMap_cons, hg, ih]
    | some e =>
      simp [bulkLoop, List.enumFrom, List.filterMap_cons, hg, ih]

theorem filterMap_congr_split {α β : Type} (k : α → Prop) [DecidablePred k]
    (f : α → Option β) (g : α → β) :
    ∀ l : List α, (∀ a ∈ l, f a = if k a then none else some (g a)) →
      l.filterMap f = (l.filter fun a => decide ¬k a).map g := by
  intro l
  induction l with
  | nil => intro _; rfl
  | cons a t ih =>
    intro h
    have ha := h a (List.mem_cons_self a t)
    have ht := ih fun b hb => h b (List.mem_cons_of_mem a hb)
    by_cases hk : k a
    · simp [List.filterMap_cons, List.filter_cons, ha, hk, ht]
    · simp [List.filterMap_cons, List.filter_cons, ha, hk, ht]

/-! ## Claim theorems -/

/-- C10: calling `removeBackground`, `upscale`, `remix` or `revert` with a
`designId` that is not the id of any Design in the Asset Store leaves the
store completely unchanged — each handler silently returns without mutating
any Design and without raising an error when the id lookup finds no
match. -/
theorem C10_unknown_id_is_noop (gw : Gateway) (newId : String)
    (store : List DesignData) (i : String) (h : findDesign store i = none) :
    handleRemoveBackground gw store i = store ∧
    handleUpscale gw store i = store ∧
    handleRemix gw newId store i = store ∧
    handleRevert store i = store :=
  ⟨handleRemoveBackground_not_found gw store i h,
   handleUpscale_not_found gw store i h,
   handleRemix_not_found gw newId store i h,
   handleRevert_not_found store i h⟩

/-- Witness for C10 at a concrete store and an id that is not present. -/
theorem C10_witness :
    handleRemoveBackground gwDemo [dSample] "zzz" = [dSample] ∧
    handleUpscale gwDemo [dSample] "zzz" = [dSample] ∧
    handleRemix gwDemo "u" [dSample] "zzz" = [dSample] ∧
    handleRevert [dSample] "zzz" = [dSample] :=
  C10_unknown_id_is_noop gwDemo "u" [dSample] "zzz" (by decide)

/-- C6: a failed gateway call made by `removeBackground` or `upscale`
leaves every field of the target Design (and the rest of the store)
unchanged, and a `generateDesign` that fails at any step — metadata/prompt
generation or image generation — adds no new Design record to the store
(directly or through remix).  The last conjunct shows `generateSingleDesign`
fails exactly when one of its two gateway steps does. -/
theorem C6_failures_never_corrupt (gw : Gateway) (newId : String)
    (store : List DesignData) (i idea : String) :
    (∀ d, findDesign store i = some d →
      gw.removeBackground d.imageUrl = none →
      handleRemoveBackground gw store i = store) ∧
    (∀ d, findDesign store i = some d → gw.upscaleImage d.imageUrl = none →
      handleUpscale gw store i = store) ∧
    (generateSingleDesign gw newId idea = none →
      handleGenerateFromIdea gw newId store idea = store) ∧
    (∀ d, findDesign store i = some d →
      generateSingleDesign gw newId d.originalIdea = none →
      handleRemix gw newId store i = store) ∧
    (generateSingleDesign gw newId idea = none ↔
      gw.generateMetadataAndPrompt idea = none ∨
      ∃ p m, gw.generateMetadataAndPrompt idea = some (p, m) ∧
        gw.generateImageFromPrompt p = none) := by
  refine ⟨?_, ?_, ?_, ?_, ?_⟩
  · intro d h hg
    by_cases hd : d.bgRemoved = true
    · exact handleRemoveBackground_flagged gw store i d h hd
    · exact handleRemoveBackground_fail gw store i d h (by simpa using hd) hg
  · intro d h hg
    by_cases hd : d.upscaled = true
    · exact handleUpscale_flagged gw store i d h hd
    · exact handleUpscale_fail gw store i d h (by simpa using hd) hg
  · exact fun h => handleGenerateFromIdea_fail gw newId store idea h
  · exact fun d h hg => handleRemix_fail gw newId store i d h hg
  · constructor
    · intro hnone
      cases hm : gw.generateMetadataAndPrompt idea with
      | none => exact Or.inl rfl
      | some pm =>
        obtain ⟨p, m⟩ := pm
        cases hgi : gw.generateImageFromPrompt p with
        | none => exact Or.inr ⟨p, m, rfl, hgi⟩
        | some u => simp [generateSingleDesign, hm, hgi] at hnone
    · intro hor
      cases hor with
      | inl hm => simp [generateSingleDesign, hm]
      | inr hex =>
        obtain ⟨p, m, hm, hgi⟩ := hex
        simp [generateSingleDesign, hm, hgi]

/-- Witness for C6 under the all-failing gateway. -/
theorem C6_witness :
    handleRemoveBackground gwFail [dSample] "a" = [dSample] ∧
    handleUpscale gwFail [dSample] "a" = [dSample] ∧
    handleGenerateFromIdea gwFail "u" [dSample] "x" = [dSample] ∧
    handleRemix gwFail "u" [dSample] "a" = [dSample] := by
  have h := C6_failures_never_corrupt gwFail "u" [dSample] "a" "x"
  exact ⟨h.1 dSample (by decide) rfl, h.2.1 dSample (by decide) rfl,
    h.2.2.1 rfl, h.2.2.2.1 dSample (by decide) rfl⟩

/-- C4: applying `removeBackground` twice in a row without an intervening
revert is equivalent to applying it once.  The first conjunct is the exact
store equation (for the same gateway responses); the second shows the
second call is a no-op whatever the gateway would answer (`gw2` arbitrary)
because the target's `bgRemoved` flag is already set, so neither the
target's fields nor any other Design change. -/
theorem C4_removeBackground_twice (gw gw2 : Gateway)
    (store : List DesignData) (i : String) :
    handleRemoveBackground gw (handleRemoveBackground gw store i) i =
      handleRemoveBackground gw store i ∧
    (∀ d', findDesign (handleRemoveBackground gw store i) i = some d' →
      d'.bgRemoved = true →
      handleRemoveBackground gw2 (handleRemoveBackground gw store i) i =
        handleRemoveBackground gw store i) := by
  constructor
  · cases hfd : findDesign store i with
    | none =>
      rw [handleRemoveBackground_not_found gw store i hfd,
        handleRemoveBackground_not_found gw store i hfd]
    | some d =>
      by_cases hd : d.bgRemoved = true
      · rw [handleRemoveBackground_flagged gw store i d hfd hd,
          handleRemoveBackground_flagged gw store i d hfd hd]
      · have hd' : d.bgRemoved = false := by simpa using hd
        cases hg : gw.removeBackground d.imageUrl with
        | none =>
          rw [handleRemoveBackground_fail gw store i d hfd hd' hg,
            handleRemoveBackground_fail gw store i d hfd hd' hg]
        | some u =>
          rw [handleRemoveBackground_success gw store i d u hfd hd' hg]
          have hup := findDesign_updateDesign store i
            (fun x => { x with imageUrl := u, bgRemoved := true })
            (fun _ => rfl) d hfd
          exact handleRemoveBackground_flagged gw _ i _ hup rfl
  · intro d' hfd' hflag
    exact handleRemoveBackground_flagged gw2 _ i d' hfd' hflag

/-- Witness for C4 with a successful first removal (the second call hits
the already-set flag). -/
theorem C4_witness :
    handleRemoveBackground gwDemo
        (handleRemoveBackground gwDemo [dSample] "a") "a" =
      handleRemoveBackground gwDemo [dSample] "a" := by
  have h := C4_removeBackground_twice gwDemo gwDemo [dSample] "a"
  exact h.2 { dSample with imageUrl := "nobg:img0", bgRemoved := true }
    (by decide) rfl

/-- C5: `originalImageUrl` never changes after creation.  The id-indexed
`originalImageUrl` column of the store is untouched by `removeBackground`,
`upscale` and `revert`, and only extended (never rewritten) by `remix` and
single generation; and every freshly generated Design starts with
`originalImageUrl` equal to the image produced at creation time. -/
theorem C5_originalImageUrl_immutable (gw : Gateway)
    (store : List DesignData) (i newId idea : String) :
    originalPairs (handleRemoveBackground gw store i) = originalPairs store ∧
    originalPairs (handleUpscale gw store i) = originalPairs store ∧
    originalPairs (handleRevert store i) = originalPairs store ∧
    (∃ t, originalPairs (handleRemix gw newId store i) =
      originalPairs store ++ t) ∧
    (∃ t, originalPairs (handleGenerateFromIdea gw newId store idea) =
      originalPairs store ++ t) ∧
    (∀ nd, generateSingleDesign gw newId idea = some nd →
      nd.originalImageUrl = nd.imageUrl) := by
  refine ⟨?_, ?_, ?_, ?_, ?_, ?_⟩
  · cases hfd : findDesign store i with
    | none => rw [handleRemoveBackground_not_found gw store i hfd]
    | some d =>
      by_cases hd : d.bgRemoved = true
      · rw [handleRemoveBackground_flagged gw store i d hfd hd]
      · have hd' : d.bgRemoved = false := by simpa using hd
        cases hg : gw.removeBackground d.imageUrl with
        | none => rw [handleRemoveBackground_fail gw store i d hfd hd' hg]
        | some u =>
          rw [handleRemoveBackground_success gw store i d u hfd hd' hg]
          exact originalPairs_updateDesign store i _ fun x => ⟨rfl, rfl⟩
  · cases hfd : findDesign store i with
    | none => rw [handleUpscale_not_found gw store i hfd]
    | some d =>
      by_cases hd : d.upscaled = true
      · rw [handleUpscale_flagged gw store i d hfd hd]
      · have hd' : d.upscaled = false := by simpa using hd
        cases hg : gw.upscaleImage d.imageUrl with
        | none => rw [handleUpscale_fail gw store i d hfd hd' hg]
        | some u =>
          rw [handleUpscale_success gw store i d u hfd hd' hg]
          exact originalPairs_updateDesign store i _ fun x => ⟨rfl, rfl⟩
  · cases hfd : findDesign store i with
    | none => rw [handleRevert_not_found store i hfd]
    | some d =>
      by_cases he : d.imageUrl = d.originalImageUrl
      · rw [handleRevert_noop store i d hfd he]
      · rw [handleRevert_restores store i d hfd he]
        exact originalPairs_updateDesign store i _ fun x => ⟨rfl, rfl⟩
  · cases hfd : findDesign store i with
    | none =>
      exact ⟨[], by rw [handleRemix_not_found gw newId store i hfd,
        List.append_nil]⟩
    | some d =>
      cases hg : generateSingleDesign gw newId d.originalIdea with
      | none =>
        exact ⟨[], by rw [handleRemix_fail gw newId store i d hfd hg,
          List.append_nil]⟩
      | some nd =>
        refine ⟨[(nd.id, nd.originalImageUrl)], ?_⟩
        rw [handleRemix_success gw newId store i d nd hfd hg, originalPairs,
          List.map_append]
        rfl
  · cases hg : generateSingleDesign gw newId idea with
    | none =>
      exact ⟨[], by rw [handleGenerateFromIdea_fail gw newId store idea hg,
        List.append_nil]⟩
    | some nd =>
      refine ⟨[(nd.id, nd.originalImageUrl)], ?_⟩
      rw [handleGenerateFromIdea_success gw newId store idea nd hg,
        originalPairs, List.map_append]
      rfl
  · intro nd hg
    cases hm : gw.generateMetadataAndPrompt idea with
    | none => simp [generateSingleDesign, hm] at hg
    | some pm =>
      obtain ⟨p, m⟩ := pm
      cases hgi : gw.generateImageFromPrompt p with
      | none => simp [generateSingleDesign, hm, hgi] at hg
      | some u =>
        simp [generateSingleDesign, hm, hgi] at hg
        rw [← hg]

/-- Witness for C5: the freshly generated design for idea `"x"` has its
`originalImageUrl` equal to the image produced at creation. -/
theorem C5_witness :
    (dIdea "u" "x").originalImageUrl = (dIdea "u" "x").imageUrl :=
  (C5_originalImageUrl_immutable gwDemo [dSample] "a" "u" "x").2.2.2.2.2
    (dIdea "u" "x") (by decide)

/-- C1 as stated is false on the code: `handleBulkGeneration` resets the
store to `[]` before generating (`setGeneratedDesigns([])`, `src/App.tsx`
line 88), so bulk generation — not only `clear()` — destroys the previous
store content.  With one idea and an all-succeeding gateway, the design
stored beforehand is no longer present afterwards; with an all-failing
gateway a non-empty store becomes empty with no clear requested. -/
theorem C1_counterexample :
    (dSample ∈ [dSample] ∧
      dSample ∉ handleBulkGeneration gwDemo (fun _ => "u") [dSample] ["x"]) ∧
    handleBulkGeneration gwFail (fun _ => "u") [dSample] ["x"] = [] :=
  ⟨⟨by decide, by decide⟩, by decide⟩

/-- C1 (amended): every non-clear, non-bulk lifecycle operation (single
generation, removeBackground, upscale, revert, remix) preserves every
Design of the store (its id remains present) and never empties a non-empty
store; bulk generation with a non-empty idea list, however, fully replaces
the store with the freshly generated designs, independently of the previous
content; `clear()` empties it. -/
theorem C1_only_clear_and_bulk_destroy (gw : Gateway) (ids : Nat → String)
    (store : List DesignData) (i newId idea : String)
    (ideas : List String) (d : DesignData) (hd : d ∈ store) :
    d.id ∈ (handleRemoveBackground gw store i).map DesignData.id ∧
    d.id ∈ (handleUpscale gw store i).map DesignData.id ∧
    d.id ∈ (handleRevert store i).map DesignData.id ∧
    d.id ∈ (handleRemix gw newId store i).map DesignData.id ∧
    d.id ∈ (handleGenerateFromIdea gw newId store idea).map DesignData.id ∧
    (ideas ≠ [] → handleBulkGeneration gw ids store ideas =
      bulkGenerate gw ids ideas) ∧
    handleClearSession true store = [] := by
  have hdid : d.id ∈ store.map DesignData.id :=
    List.mem_map_of_mem DesignData.id hd
  refine ⟨?_, ?_, ?_, ?_, ?_, ?_, rfl⟩
  · cases hfd : findDesign store i with
    | none => rw [handleRemoveBackground_not_found gw store i hfd]; exact hdid
    | some e =>
      by_cases he : e.bgRemoved = true
      · rw [handleRemoveBackground_flagged gw store i e hfd he]; exact hdid
      · have he' : e.bgRemoved = false := by simpa using he
        cases hg : gw.removeBackground e.imageUrl with
        | none =>
          rw [handleRemoveBackground_fail gw store i e hfd he' hg]
          exact hdid
        | some u =>
          rw [handleRemoveBackground_success gw store i e u hfd he' hg,
            map_id_updateDesign store i
              (fun x => { x with imageUrl := u, bgRemoved := true })
              fun _ => rfl]
          exact hdid
  · cases hfd : findDesign store i with
    | none => rw [handleUpscale_not_found gw store i hfd]; exact hdid
    | some e =>
      by_cases he : e.upscaled = true
      · rw [handleUpscale_flagged gw store i e hfd he]; exact hdid
      · have he' : e.upscaled = false := by simpa using he
        cases hg : gw.upscaleImage e.imageUrl with
        | none => rw [handleUpscale_fail gw store i e hfd he' hg]; exact hdid
        | some u =>
          rw [handleUpscale_success gw store i e u hfd he' hg,
            map_id_updateDesign store i
              (fun x => { x with imageUrl := u, upscaled := true })
              fun _ => rfl]
          exact hdid
  · cases hfd : findDesign store i with
    | none => rw [handleRevert_not_found store i hfd]; exact hdid
    | some e =>
      by_cases he : e.imageUrl = e.originalImageUrl
      · rw [handleRevert_noop store i e hfd he]; exact hdid
      · rw [handleRevert_restores store i e hfd he,
          map_id_updateDesign store i
            (fun x => { x with imageUrl := e.originalImageUrl,
                               bgRemoved := false, upscaled := false })
            fun _ => rfl]
        exact hdid
  · cases hfd : findDesign store i with
    | none => rw [handleRemix_not_found gw newId store i hfd]; exact hdid
    | some e =>
      cases hg : generateSingleDesign gw newId e.originalIdea with
      | none => rw [handleRemix_fail gw newId store i e hfd hg]; exact hdid
      | some nd =>
        rw [handleRemix_success gw newId store i e nd hfd hg,
          List.map_append]
        exact List.mem_append_left _ hdid
  · cases hg : generateSingleDesign gw newId idea with
    | none => rw [handleGenerateFromIdea_fail gw newId store idea hg]
              exact hdid
    | some nd =>
      rw [handleGenerateFromIdea_success gw newId store idea nd hg,
        List.map_append]
      exact List.mem_append_left _ hdid
  · intro hne
    cases ideas with
    | nil => exact absurd rfl hne
    | cons a t => rfl

/-- Witness for the amended C1 at a concrete store. -/
theorem C1_witness :
    dSample.id ∈ (handleRemoveBackground gwDemo [dSample] "a").map
      DesignData.id ∧
    dSample.id ∈ (handleUpscale gwDemo [dSample] "a").map DesignData.id ∧
    dSample.id ∈ (handleRevert [dSample] "a").map DesignData.id ∧
    dSample.id ∈ (handleRemix gwDemo "u" [dSample] "a").map DesignData.id ∧
    dSample.id ∈ (handleGenerateFromIdea gwDemo "u" [dSample] "x").map
      DesignData.id ∧
    (["y"] ≠ ([] : List String) →
      handleBulkGeneration gwDemo (fun _ => "u") [dSample] ["y"] =
        bulkGenerate gwDemo (fun _ => "u") ["y"]) ∧
    handleClearSession true [dSample] = [] :=
  C1_only_clear_and_bulk_destroy gwDemo (fun _ => "u") [dSample] "a" "u" "x"
    ["y"] dSample (by decide)

/-- C7: the resolution verdict of `analyzeUpload` is a pure local function
of the two pixel dimensions: status `✅` ("pass") holds exactly when
width ≥ 4500 and height ≥ 5400, status `⚠️` ("warn") exactly otherwise,
and the upscaling suggestion is present exactly when width < 4500 or
height < 5400; in particular 5000×5500 passes with no suggestion and
3000×4000 warns with the suggestion present. -/
theorem C7_resolution_verdict :
    (∀ w h : Nat,
      ((resolutionCheck w h).status = "✅" ↔ 4500 ≤ w ∧ 5400 ≤ h) ∧
      ((resolutionCheck w h).status = "⚠️" ↔ ¬(4500 ≤ w ∧ 5400 ≤ h)) ∧
      ((resolutionCheck w h).suggestion.isSome = true ↔
        w < 4500 ∨ h < 5400)) ∧
    (resolutionCheck 5000 5500).status = "✅" ∧
    (resolutionCheck 5000 5500).suggestion = none ∧
    (resolutionCheck 3000 4000).status = "⚠️" ∧
    (resolutionCheck 3000 4000).suggestion =
      some "Use an upscaler for a high-quality print." := by
  refine ⟨fun w h => ⟨?_, ?_, ?_⟩, by decide, by decide, by decide,
    by decide⟩
  · by_cases hc : 4500 ≤ w ∧ 5400 ≤ h
    · simp [resolutionCheck, hc]
    · simp [resolutionCheck, hc]
  · by_cases hc : 4500 ≤ w ∧ 5400 ≤ h
    · simp [resolutionCheck, hc]
    · simp [resolutionCheck, hc]
  · by_cases hs : w < 4500 ∨ h < 5400
    · simp [resolutionCheck, hs]
    · simp [resolutionCheck, hs]

/-- C9: the metadata export produces exactly one row per input Design, in
store order, with the Title/Description/Tags/Type/Color/OriginalIdea
columns, each row's OriginalIdea equal to the Design's stored
`originalIdea` verbatim. -/
theorem C9_export_one_row_per_design (designs : List DesignData) :
    (downloadMetadataAsXLSX designs).length = designs.length ∧
    (downloadMetadataAsXLSX designs).map MetadataRow.OriginalIdea =
      designs.map DesignData.originalIdea ∧
    (∀ k, k < designs.length → ∀ d, designs[k]? = some d →
      (downloadMetadataAsXLSX designs)[k]? =
        some { Title := d.metadata.Title,
               Description := d.metadata.Description,
               Tags := d.metadata.Tags, «Type» := d.metadata.«Type»,
               Color := d.metadata.Color,
               OriginalIdea := d.originalIdea }) := by
  refine ⟨?_, ?_, ?_⟩
  · simp [downloadMetadataAsXLSX]
  · rw [downloadMetadataAsXLSX, List.map_map]
    rfl
  · intro k hk d hd
    rw [downloadMetadataAsXLSX, List.getElem?_map, hd]
    rfl

/-- Witness for C9 on the one-design store. -/
theorem C9_witness :
    (downloadMetadataAsXLSX [dSample])[0]? =
      some { Title := "Synthwave Cat", Description := "retro cat",
             Tags := "cat,retro", «Type» := "tee", Color := "black",
             OriginalIdea := "a synthwave cat" } :=
  (C9_export_one_row_per_design [dSample]).2.2 0 (by decide) dSample
    (by decide)

/-- C8: a successful `remix(d.id)` appends a new Design `d'` with
`d'.id = newId` — different from `d.id` and from every id already in the
store, given that the freshly drawn UUID is not already present —
`d'.originalIdea` equal to `d.originalIdea` exactly, and the source design
left in place unmodified (the whole previous store is a prefix of the
result). -/
theorem C8_remix_appends_independent (gw : Gateway) (newId : String)
    (store : List DesignData) (i : String) (d nd : DesignData)
    (hf : findDesign store i = some d)
    (hg : generateSingleDesign gw newId d.originalIdea = some nd)
    (hfresh : newId ∉ store.map DesignData.id) :
    handleRemix gw newId store i = store ++ [nd] ∧
    nd.id = newId ∧
    nd.id ∉ store.map DesignData.id ∧
    nd.id ≠ d.id ∧
    nd.originalIdea = d.originalIdea ∧
    d ∈ handleRemix gw newId store i := by
  have hrec : nd.id = newId ∧ nd.originalIdea = d.originalIdea := by
    cases hm : gw.generateMetadataAndPrompt d.originalIdea with
    | none => simp [generateSingleDesign, hm] at hg
    | some pm =>
      obtain ⟨p, m⟩ := pm
      cases hgi : gw.generateImageFromPrompt p with
      | none => simp [generateSingleDesign, hm, hgi] at hg
      | some u =>
        simp only [generateSingleDesign, hm, hgi, Option.some.injEq] at hg
        subst hg
        exact ⟨rfl, rfl⟩
  have happ := handleRemix_success gw newId store i d nd hf hg
  have hdid : d.id ∈ store.map DesignData.id :=
    List.mem_map_of_mem DesignData.id (List.mem_of_find?_eq_some hf)
  refine ⟨happ, hrec.1, ?_, ?_, hrec.2, ?_⟩
  · rw [hrec.1]; exact hfresh
  · intro hcontra
    apply hfresh
    rw [← hrec.1, hcontra]
    exact hdid
  · rw [happ]
    exact List.mem_append_left _ (List.mem_of_find?_eq_some hf)

/-- Witness for C8: remixing the sample design under the demo gateway. -/
theorem C8_witness :
    handleRemix gwDemo "u2" [dSample] "a" =
      [dSample] ++ [dIdea "u2" "a synthwave cat"] ∧
    (dIdea "u2" "a synthwave cat").id = "u2" ∧
    (dIdea "u2" "a synthwave cat").id ∉ [dSample].map DesignData.id ∧
    (dIdea "u2" "a synthwave cat").id ≠ dSample.id ∧
    (dIdea "u2" "a synthwave cat").originalIdea = dSample.originalIdea ∧
    dSample ∈ handleRemix gwDemo "u2" [dSample] "a" :=
  C8_remix_appends_independent gwDemo "u2" [dSample] "a" dSample
    (dIdea "u2" "a synthwave cat") (by decide) (by decide) (by decide)

/-- C3 as stated is false on the code in one corner: `handleRevert`
decides its no-op by `imageUrl === originalImageUrl`, not by the flags.  A
successful `removeBackground` whose gateway happens to return the very same
image leaves `imageUrl` equal to `originalImageUrl` with
`bgRemoved = true`; the subsequent revert is then a no-op and the flag
stays `true`, contradicting the claimed `bgRemoved == false`. -/
theorem C3_counterexample :
    handleRemoveBackground gwIdentityBg [dSample] "a" =
      [{ dSample with bgRemoved := true }] ∧
    handleRevert (handleRemoveBackground gwIdentityBg [dSample] "a") "a" =
      handleRemoveBackground gwIdentityBg [dSample] "a" ∧
    (findDesign (handleRevert
        (handleRemoveBackground gwIdentityBg [dSample] "a") "a") "a").map
      DesignData.bgRemoved ≠ some false :=
  ⟨by decide, by decide, by decide⟩

/-- C3 (amended): after any sequence of transform applications, revert
always restores `imageUrl = originalImageUrl` (the creation-time value);
it additionally clears both flags whenever `imageUrl` differs from
`originalImageUrl` at the moment of the call (in particular after any
transform sequence that actually changed the image); and revert is a no-op
(store unchanged) when `imageUrl = originalImageUrl` already holds. -/
theorem C3_revert_restores_original (gw : Gateway)
    (store : List DesignData) (i : String) (ops : List TransformOp)
    (d : DesignData) (h : findDesign store i = some d) :
    (∃ e, findDesign
        (handleRevert (applyTransforms gw store i ops) i) i = some e ∧
      e.imageUrl = e.originalImageUrl ∧
      e.originalImageUrl = d.originalImageUrl) ∧
    (∀ d', findDesign (applyTransforms gw store i ops) i = some d' →
      ¬d'.imageUrl = d'.originalImageUrl →
      ∃ e, findDesign
          (handleRevert (applyTransforms gw store i ops) i) i = some e ∧
        e.imageUrl = e.originalImageUrl ∧
        e.bgRemoved = false ∧ e.upscaled = false) ∧
    (d.imageUrl = d.originalImageUrl → handleRevert store i = store) := by
  refine ⟨?_, ?_, fun he => handleRevert_noop store i d h he⟩
  · obtain ⟨d', h', _, ho'⟩ := findDesign_applyTransforms gw i ops store d h
    obtain ⟨e, he1, he2, he3, _⟩ := findDesign_handleRevert _ i d' h'
    exact ⟨e, he1, he2, he3.trans ho'⟩
  · intro d' h' hne
    obtain ⟨e, he1, he2, _, hflags⟩ := findDesign_handleRevert _ i d' h'
    exact ⟨e, he1, he2, (hflags hne).1, (hflags hne).2⟩

/-- Witness for the amended C3: one actual background removal followed by
a revert on the sample store. -/
theorem C3_witness :
    (∃ e, findDesign (handleRevert (applyTransforms gwDemo [dSample] "a"
        [TransformOp.removeBg]) "a") "a" = some e ∧
      e.imageUrl = e.originalImageUrl ∧
      e.originalImageUrl = dSample.originalImageUrl) ∧
    (∀ d', findDesign (applyTransforms gwDemo [dSample] "a"
        [TransformOp.removeBg]) "a" = some d' →
      ¬d'.imageUrl = d'.originalImageUrl →
      ∃ e, findDesign (handleRevert (applyTransforms gwDemo [dSample] "a"
          [TransformOp.removeBg]) "a") "a" = some e ∧
        e.imageUrl = e.originalImageUrl ∧
        e.bgRemoved = false ∧ e.upscaled = false) ∧
    (dSample.imageUrl = dSample.originalImageUrl →
      handleRevert [dSample] "a" = [dSample]) :=
  C3_revert_restores_original gwDemo [dSample] "a" [TransformOp.removeBg]
    dSample (by decide)

/-- C2: when the gateway fails for the idea at position `k` and succeeds
(with design `d j`) at every other position `j`, the bulk run processes
the ideas one at a time and the resulting store content is exactly the
successfully generated designs for all positions other than `k`, in the
original relative order; the failure at `k` does not halt processing of
the later ideas. -/
theorem C2_bulk_skips_only_failure (gw : Gateway) (ids : Nat → String)
    (ideas : List String) (k : Nat) (d : Nat → DesignData)
    (hk : k < ideas.length)
    (h : ∀ p ∈ ideas.enum, generateSingleDesign gw (ids p.1) p.2 =
      if p.1 = k then none else some (d p.1)) :
    bulkGenerate gw ids ideas =
      (ideas.enum.filter fun p => decide ¬p.1 = k).map fun p => d p.1 := by
  rw [bulkGenerate, bulkLoop_eq_filterMap gw ids ideas 0]
  exact filterMap_congr_split (fun p => p.1 = k)
    (fun p => generateSingleDesign gw (ids p.1) p.2) (fun p => d p.1)
    ideas.enum h

/-- Witness for C2: ideas `["a", "b", "c"]` where exactly `"b"` (position
1) fails; the resulting content is the designs for `"a"` and `"c"` in
order. -/
theorem C2_witness :
    (bulkGenerate gwDemo (fun _ => "u") ["a", "b", "c"] =
      ((["a", "b", "c"].enum.filter fun p => decide ¬p.1 = 1).map
        fun p => dBulkWitness p.1)) ∧
    bulkGenerate gwDemo (fun _ => "u") ["a", "b", "c"] =
      [dIdea "u" "a", dIdea "u" "c"] :=
  ⟨C2_bulk_skips_only_failure gwDemo (fun _ => "u") ["a", "b", "c"] 1
    dBulkWitness (by decide) (by decide), by decide⟩
